import Mathlib

/-!
Verification development for the DICOMviewer repository.

The repository's orchestrator (`dicomviewer.py`, class `DicomViewer`) wires GUI
signals to handlers: `slider_released`, `series_change`, `dicoms_change`,
`image_change`, `slider_image_changed`.  The numeric core (windowing transform
`window_image`, region-of-interest statistics, `setImage`, `delete_rect`) lives
in `GUI/viewer.py`, which is not part of the given sources; those pieces are
modelled from the specification, as marked in their doc comments.  Everything
else is translated directly from `src/dicomviewer.py`.

Python semantics that matter here and are modelled explicitly:
 - list indexing `l[i]` accepts negative indices, wrapping from the end, and
   raises `IndexError` otherwise (`pyGet`);
 - an exception raised mid-handler aborts the rest of the handler but keeps any
   state mutations already performed; handlers return
   `Option PyErr × ViewerState` where `some e` means the exception escaped the
   handler uncaught (there is no try/except in `dicomviewer.py`).
-/

/-- Maximum display intensity for an 8-bit display surface. -/
def D_MAX : ℤ := 255

/-- Round half up: the rounding rule chosen for the windowing interpolation. -/
def roundHalfUp (q : ℚ) : ℤ := ⌊q + 1/2⌋

/-- Modelled from the spec: lower edge `low = level - width/2` of the window
(§4.1); computed exactly over ℚ. -/
def wLow (level width : ℤ) : ℚ := (level : ℚ) - (width : ℚ) / 2

/-- Modelled from the spec: upper edge `high = level + width/2` of the window
(§4.1). -/
def wHigh (level width : ℤ) : ℚ := (level : ℚ) + (width : ℚ) / 2

/-- Modelled from the spec: the windowing transform of §4.1.  The original
`window_image` lives in the missing `GUI/viewer.py`; per §4.1 the transform
clamps to `0` at or below `low`, to `D_MAX` at or above `high`, linearly
interpolates in between, and for the degenerate `width == 0` case follows the
policy branch `D_MAX if v ≥ level else 0`.  `wInterp` is the linear
interpolation `(v - low) / (high - low) * D_MAX` used strictly inside the
window. -/
def wInterp (level width v : ℤ) : ℚ :=
  ((v : ℚ) - wLow level width) / (wHigh level width - wLow level width) * (D_MAX : ℚ)

/-- Modelled from the spec: the windowing transform of §4.1 (see `wInterp`). -/
def windowMap (level width v : ℤ) : ℤ :=
  if width = 0 then (if level ≤ v then D_MAX else 0)
  else if (v : ℚ) ≤ wLow level width then 0
  else if wHigh level width ≤ (v : ℚ) then D_MAX
  else roundHalfUp (wInterp level width v)

/-- Modelled from the spec: elementwise application of the windowing transform
over a whole slice, producing the display buffer (§4.1). -/
def windowImage (level width : ℤ) (g : List (List ℤ)) : List (List ℤ) :=
  g.map (List.map (windowMap level width))

/-- Modelled from the spec: the raw pixel values of a slice `g` (row-major,
`g[y][x]`) inside an already clipped and normalized selection rectangle
`(x0, y0, x1, y1)`, inclusive bounds (§4.2). -/
def rectValues (g : List (List ℤ)) (x0 y0 x1 y1 : ℕ) : List ℤ :=
  ((List.range (y1 + 1 - y0)).map (fun dy =>
    (List.range (x1 + 1 - x0)).map (fun dx =>
      (g.getD (y0 + dy) []).getD (x0 + dx) 0))).flatten

/-- Modelled from the spec: `area = (x1 - x0 + 1) * (y1 - y0 + 1)` (§4.2). -/
def regionArea (x0 y0 x1 y1 : ℕ) : ℕ := (x1 - x0 + 1) * (y1 - y0 + 1)

/-- Modelled from the spec: arithmetic mean of the raw pixel values (§4.2). -/
def regionMean (vs : List ℤ) : ℚ := (vs.sum : ℚ) / (vs.length : ℚ)

/-- Modelled from the spec: population variance computed in the two-pass form
(mean first, then mean of squared deviations) preferred by §4.2. -/
def regionVar (vs : List ℤ) : ℚ :=
  ((vs.map (fun v : ℤ => ((v : ℚ) - regionMean vs) ^ 2)).sum) / (vs.length : ℚ)

/-- Modelled from the spec: population standard deviation, the square root of
the population variance (§4.2). -/
noncomputable def regionStddev (vs : List ℤ) : ℝ :=
  Real.sqrt ((regionVar vs : ℚ) : ℝ)

/-- A loaded DICOM slice: identifying filename plus its raw pixel grid. -/
structure Dicom where
  filename : String
  pixels : List (List ℤ)
deriving DecidableEq

/-- A selection rectangle in slice pixel coordinates, normalized and clipped. -/
structure Rect where
  x0 : ℕ
  y0 : ℕ
  x1 : ℕ
  y1 : ℕ
deriving DecidableEq

/-- The session hierarchy `self.sessions`: a Python dict of dicts, modelled as
insertion-ordered association lists (`sessionKey → seriesKey → list of Dicom`),
matching `list(dict.keys())[i]` indexing in the source. -/
abbrev Sessions := List (String × List (String × List Dicom))

/-- The orchestrator state: the `DicomViewer` attributes together with the GUI
widget state the handlers read and write (combobox indices, list-widget current
row, slider values and ranges, the displayed image, the rendered display
buffer, and the current selection rectangle). -/
structure ViewerState where
  sessions : Sessions
  sessionsIndex : ℤ
  seriesIndex : ℤ
  currentRow : ℤ
  sliderLevel : ℤ
  sliderWindow : ℤ
  sliderImageMin : ℤ
  sliderImageMax : ℤ
  windowLevel : ℤ
  windowWidth : ℤ
  displayed : Option Dicom
  displayBuffer : Option (List (List ℤ))
  selection : Option Rect
deriving DecidableEq

/-- The Python exceptions the handlers can raise (none are caught). -/
inductive PyErr where
  | indexError
deriving DecidableEq

/-- Python list indexing `l[i]`: non-negative indices from the front, negative
indices wrap from the end, anything else raises `IndexError` (here `none`). -/
def pyGet {α : Type} (l : List α) (i : ℤ) : Option α :=
  if 0 ≤ i then l.get? i.toNat
  else if 0 ≤ i + (l.length : ℤ) then l.get? (i + (l.length : ℤ)).toNat
  else none

/-- Modelled from the spec: the missing `Viewer.setImage` displays a new slice;
per §2/§4.3 the selection controller invalidates itself when the displayed
slice changes, so any selection is discarded. -/
def setImage (s : ViewerState) (d : Dicom) : ViewerState :=
  { s with displayed := some d, selection := none }

/-- `DicomViewer.slider_released` (src/dicomviewer.py:82-89): applies the
current slider values as the window setting and re-renders.  The missing
`Viewer.window_image`/`showImageWindowed` are modelled from the spec as the
pure elementwise windowing of the displayed slice (§4.1); they touch no other
state. -/
def slider_released (s : ViewerState) : ViewerState :=
  { s with
      windowLevel := s.sliderLevel
      windowWidth := s.sliderWindow
      displayBuffer :=
        s.displayed.map (fun d => windowImage s.sliderLevel s.sliderWindow d.pixels) }

/-- `DicomViewer.dicoms_change` (src/dicomviewer.py:149-168): first
`delete_rect(None)` (modelled from the spec as clearing the selection), then an
early return when no study is loaded, then session and series lookups (which
can raise `IndexError`), then `set_dicoms` (modelled from the spec: the image
list is repopulated and its current row reset to the first entry), the image
slider range set to `[1, len(series)]`, `setImage(series[0])` and
`slider_released()`. -/
def dicoms_change (s : ViewerState) (index : ℤ) : Option PyErr × ViewerState :=
  let s1 := { s with selection := none }
  if s1.sessions = [] then (none, s1)
  else
    match pyGet s1.sessions s1.sessionsIndex with
    | none => (some PyErr.indexError, s1)
    | some (_, sess) =>
      match pyGet sess index with
      | none => (some PyErr.indexError, s1)
      | some (_, series) =>
        let s2 := { s1 with
                      currentRow := 0
                      sliderImageMin := 1
                      sliderImageMax := (series.length : ℤ) }
        match pyGet series 0 with
        | none => (some PyErr.indexError, s2)
        | some d => (none, slider_released (setImage s2 d))

/-- `DicomViewer.series_change` (src/dicomviewer.py:134-147): early return when
no study is loaded, then the session lookup `list(self.sessions.keys())[index]`
(which can raise `IndexError`), then `set_series` (modelled from the spec: the
series selector is repopulated and reset to its first entry) and
`dicoms_change(0)`. -/
def series_change (s : ViewerState) (index : ℤ) : Option PyErr × ViewerState :=
  if s.sessions = [] then (none, s)
  else
    match pyGet s.sessions index with
    | none => (some PyErr.indexError, s)
    | some _ => dicoms_change { s with seriesIndex := 0 } 0

/-- `DicomViewer.image_change` (src/dicomviewer.py:170-181): reads the current
row and combobox indices, performs the three lookups (each can raise
`IndexError`; no empty-study guard exists here), then `setImage(series[num])`
and `slider_released()`. -/
def image_change (s : ViewerState) : Option PyErr × ViewerState :=
  match pyGet s.sessions s.sessionsIndex with
  | none => (some PyErr.indexError, s)
  | some (_, sess) =>
    match pyGet sess s.seriesIndex with
    | none => (some PyErr.indexError, s)
    | some (_, series) =>
      match pyGet series s.currentRow with
      | none => (some PyErr.indexError, s)
      | some d => (none, slider_released (setImage s d))

/-- `DicomViewer.slider_image_changed` (src/dicomviewer.py:183-190):
`setCurrentRow(value)` sets the list widget's current row, whose row-changed
signal dispatches `image_change`. -/
def slider_image_changed (s : ViewerState) (value : ℤ) : Option PyErr × ViewerState :=
  image_change { s with currentRow := value }

/-- Modelled from the spec: `selectSession(k)` — the user activates the session
selector at index `k`, which sets the widget's current index and dispatches the
connected handler `series_change(k)` (§4.4, wiring at src/dicomviewer.py:73). -/
def selectSession (s : ViewerState) (k : ℤ) : Option PyErr × ViewerState :=
  series_change { s with sessionsIndex := k } k

/-- Modelled from the spec: `selectSeries(k)` — the user activates the series
selector at index `k`, which sets the widget's current index and dispatches the
connected handler `dicoms_change(k)` (§4.4, wiring at src/dicomviewer.py:74). -/
def selectSeries (s : ViewerState) (k : ℤ) : Option PyErr × ViewerState :=
  dicoms_change { s with seriesIndex := k } k

/-- Modelled from the spec: `setWindow(level, width)` — the user moves the
level and width sliders, whose value-changed signals dispatch
`slider_released` (§4.4, wiring at src/dicomviewer.py:76-77). -/
def setWindow (s : ViewerState) (level width : ℤ) : ViewerState :=
  slider_released { s with sliderLevel := level, sliderWindow := width }

/-- The overlay rectangle emitted to the display collaborator: the current
selection, when one exists (§4.4 `render()`). -/
def emittedOverlay (s : ViewerState) : Option Rect := s.selection

/-- The statistics emitted to the display collaborator: area, mean and
population variance of the selection on the displayed slice, when a selection
exists (§4.4 `render()`). -/
def emittedStats (s : ViewerState) : Option (ℕ × ℚ × ℚ) :=
  match s.selection, s.displayed with
  | some r, some d =>
      some (regionArea r.x0 r.y0 r.x1 r.y1,
            regionMean (rectValues d.pixels r.x0 r.y0 r.x1 r.y1),
            regionVar (rectValues d.pixels r.x0 r.y0 r.x1 r.y1))
  | _, _ => none

/-- The 4×4 grid of concrete scenario 2. -/
def grid4 : List (List ℤ) :=
  [[1,2,3,4],[5,6,7,8],[9,10,11,12],[13,14,15,16]]

/-- A concrete three-slice series used to instantiate theorems. -/
def sampleSeries : List Dicom :=
  [⟨"a.dcm", [[0]]⟩, ⟨"b.dcm", [[1]]⟩, ⟨"c.dcm", [[2]]⟩]

/-- A concrete loaded state: one session with one series of three slices, the
first slice displayed, a selection present. -/
def sampleState : ViewerState :=
  { sessions := [("sess1", [("ser1", sampleSeries)])]
    sessionsIndex := 0
    seriesIndex := 0
    currentRow := 0
    sliderLevel := 40
    sliderWindow := 400
    sliderImageMin := 1
    sliderImageMax := 3
    windowLevel := 40
    windowWidth := 400
    displayed := some ⟨"a.dcm", [[0]]⟩
    displayBuffer := none
    selection := some ⟨0, 0, 0, 0⟩ }

/-- The initial state before any study is loaded: empty hierarchy, empty
widgets (a Qt combobox or list with no items reports current index/row -1). -/
def emptyState : ViewerState :=
  { sessions := []
    sessionsIndex := -1
    seriesIndex := -1
    currentRow := -1
    sliderLevel := 0
    sliderWindow := 0
    sliderImageMin := 0
    sliderImageMax := 99
    windowLevel := 0
    windowWidth := 0
    displayed := none
    displayBuffer := none
    selection := none }

/-! ## Windowing lemmas -/

lemma wHigh_sub_wLow (level width : ℤ) :
    wHigh level width - wLow level width = (width : ℚ) := by
  unfold wLow wHigh; ring

lemma wLow_lt_wHigh (level width : ℤ) (hw : 0 < width) :
    wLow level width < wHigh level width := by
  have h : (0 : ℚ) < (width : ℚ) := by exact_mod_cast hw
  unfold wLow wHigh; linarith

lemma roundHalfUp_nonneg {q : ℚ} (h : 0 ≤ q) : 0 ≤ roundHalfUp q := by
  unfold roundHalfUp
  exact Int.le_floor.mpr (by push_cast; linarith)

lemma roundHalfUp_le_of_lt {q : ℚ} {b : ℤ} (h : q < (b : ℚ)) : roundHalfUp q ≤ b := by
  unfold roundHalfUp
  have hb : ⌊q + 1/2⌋ < b + 1 := Int.floor_lt.mpr (by push_cast; linarith)
  omega

lemma roundHalfUp_mono {p q : ℚ} (h : p ≤ q) : roundHalfUp p ≤ roundHalfUp q := by
  unfold roundHalfUp
  exact Int.floor_le_floor (by linarith)

lemma wInterp_nonneg {level width v : ℤ} (hw : 0 < width)
    (h1 : wLow level width < (v : ℚ)) : 0 ≤ wInterp level width v := by
  have hd : (0 : ℚ) < wHigh level width - wLow level width := by
    rw [wHigh_sub_wLow]; exact_mod_cast hw
  unfold wInterp
  have hD : (0 : ℚ) ≤ (D_MAX : ℚ) := by norm_num [D_MAX]
  exact mul_nonneg (div_nonneg (by linarith) hd.le) hD

lemma wInterp_lt {level width v : ℤ} (hw : 0 < width)
    (h2 : (v : ℚ) < wHigh level width) : wInterp level width v < (D_MAX : ℚ) := by
  have hd : (0 : ℚ) < wHigh level width - wLow level width := by
    rw [wHigh_sub_wLow]; exact_mod_cast hw
  have hr : ((v : ℚ) - wLow level width) / (wHigh level width - wLow level width) < 1 :=
    (div_lt_one hd).mpr (by linarith)
  have hD : (0 : ℚ) < (D_MAX : ℚ) := by norm_num [D_MAX]
  calc wInterp level width v
      < 1 * (D_MAX : ℚ) := by unfold wInterp; exact mul_lt_mul_of_pos_right hr hD
    _ = (D_MAX : ℚ) := one_mul _

lemma wInterp_mono {level width v1 v2 : ℤ} (hw : 0 < width) (hv : v1 ≤ v2) :
    wInterp level width v1 ≤ wInterp level width v2 := by
  have hd : (0 : ℚ) < wHigh level width - wLow level width := by
    rw [wHigh_sub_wLow]; exact_mod_cast hw
  have hvq : (v1 : ℚ) ≤ (v2 : ℚ) := by exact_mod_cast hv
  have hD : (0 : ℚ) ≤ (D_MAX : ℚ) := by norm_num [D_MAX]
  unfold wInterp
  exact mul_le_mul_of_nonneg_right (div_le_div_of_nonneg_right (by linarith) hd.le) hD

lemma windowMap_of_le_low {level width v : ℤ} (hw0 : width ≠ 0)
    (h : (v : ℚ) ≤ wLow level width) : windowMap level width v = 0 := by
  simp [windowMap, hw0, h]

lemma windowMap_of_ge_high {level width v : ℤ} (hw : 0 < width)
    (h : wHigh level width ≤ (v : ℚ)) : windowMap level width v = D_MAX := by
  have h1 : ¬ ((v : ℚ) ≤ wLow level width) :=
    not_le.mpr (lt_of_lt_of_le (wLow_lt_wHigh level width hw) h)
  simp [windowMap, ne_of_gt hw, h1, h]

lemma windowMap_interior {level width v : ℤ} (hw : 0 < width)
    (h1 : wLow level width < (v : ℚ)) (h2 : (v : ℚ) < wHigh level width) :
    windowMap level width v = roundHalfUp (wInterp level width v) := by
  simp [windowMap, ne_of_gt hw, not_le.mpr h1, not_le.mpr h2]

lemma windowMap_nonneg (level width v : ℤ) (hw : 0 ≤ width) :
    0 ≤ windowMap level width v := by
  by_cases h0 : width = 0
  · simp only [windowMap, h0, if_true, if_pos rfl]
    split <;> norm_num [D_MAX]
  · have hw' : 0 < width := lt_of_le_of_ne hw (Ne.symm h0)
    by_cases h1 : (v : ℚ) ≤ wLow level width
    · rw [windowMap_of_le_low h0 h1]
    · by_cases h2 : wHigh level width ≤ (v : ℚ)
      · rw [windowMap_of_ge_high hw' h2]; norm_num [D_MAX]
      · rw [windowMap_interior hw' (not_le.mp h1) (not_le.mp h2)]
        exact roundHalfUp_nonneg (wInterp_nonneg hw' (not_le.mp h1))

lemma windowMap_le_D_MAX (level width v : ℤ) (hw : 0 ≤ width) :
    windowMap level width v ≤ D_MAX := by
  by_cases h0 : width = 0
  · subst h0
    by_cases h : level ≤ v
    · simp [windowMap, h]
    · norm_num [windowMap, h, D_MAX]
  · have hw' : 0 < width := lt_of_le_of_ne hw (Ne.symm h0)
    by_cases h1 : (v : ℚ) ≤ wLow level width
    · rw [windowMap_of_le_low h0 h1]; norm_num [D_MAX]
    · by_cases h2 : wHigh level width ≤ (v : ℚ)
      · rw [windowMap_of_ge_high hw' h2]
      · rw [windowMap_interior hw' (not_le.mp h1) (not_le.mp h2)]
        exact roundHalfUp_le_of_lt (wInterp_lt hw' (not_le.mp h2))

lemma windowMap_concrete_mid : windowMap 40 400 40 = 128 := by
  have h : wInterp 40 400 40 = (255 : ℚ) / 2 := by
    norm_num [wInterp, wLow, wHigh, D_MAX]
  have h1 : ¬ (((40 : ℤ) : ℚ) ≤ wLow 40 400) := by norm_num [wLow]
  have h2 : ¬ (wHigh 40 400 ≤ ((40 : ℤ) : ℚ)) := by norm_num [wHigh]
  rw [windowMap, if_neg (by norm_num), if_neg h1, if_neg h2, h]
  unfold roundHalfUp
  rw [show (255 : ℚ) / 2 + 1/2 = ((128 : ℤ) : ℚ) by norm_num]
  exact Int.floor_intCast 128

lemma windowMap_concrete_low : windowMap 40 400 (-1000) = 0 := by
  have h1 : (((-1000 : ℤ)) : ℚ) ≤ wLow 40 400 := by norm_num [wLow]
  exact windowMap_of_le_low (by norm_num) h1

lemma windowMap_concrete_high : windowMap 40 400 8190 = D_MAX := by
  have h1 : wHigh 40 400 ≤ ((8190 : ℤ) : ℚ) := by norm_num [wHigh]
  exact windowMap_of_ge_high (by norm_num) h1

/-! ## Claim theorems: windowing -/

/-- Claim C1: for every integer raw pixel value `v` and window `(level, width)`
with `width > 0`, the windowing transform outputs `0` when `v ≤ level - width/2`,
`D_MAX` when `v ≥ level + width/2`, and otherwise
`round((v - low) / (high - low) * D_MAX)` (round half up being the chosen
rounding rule); concretely for `level = 40`, `width = 400`: `v = -1000 ↦ 0`,
`v = 8190 ↦ 255`, and `v = 40 ↦ 128` (one of the two admissible midpoint
roundings). -/
theorem C1_windowing (level width v : ℤ) (hw : 0 < width) :
    (((v : ℚ) ≤ wLow level width → windowMap level width v = 0) ∧
     (wHigh level width ≤ (v : ℚ) → windowMap level width v = D_MAX) ∧
     (wLow level width < (v : ℚ) → (v : ℚ) < wHigh level width →
        windowMap level width v =
          roundHalfUp (((v : ℚ) - wLow level width) /
            (wHigh level width - wLow level width) * (D_MAX : ℚ)))) ∧
    (windowMap 40 400 (-1000) = 0 ∧ windowMap 40 400 8190 = D_MAX ∧
     (windowMap 40 400 40 = 127 ∨ windowMap 40 400 40 = 128)) := by
  refine ⟨⟨fun h => windowMap_of_le_low (ne_of_gt hw) h,
          fun h => windowMap_of_ge_high hw h,
          fun h1 h2 => ?_⟩,
         windowMap_concrete_low, windowMap_concrete_high,
         Or.inr windowMap_concrete_mid⟩
  simpa [wInterp] using windowMap_interior hw h1 h2

/-- Witness for C1 at `level = 40`, `width = 400`, `v = 40`. -/
theorem C1_windowing_witness :
    windowMap 40 400 (-1000) = 0 ∧ windowMap 40 400 8190 = D_MAX ∧
    (windowMap 40 400 40 = 127 ∨ windowMap 40 400 40 = 128) :=
  (C1_windowing 40 400 40 (by norm_num)).2

/-- Claim C5: with `width = 0` the windowing transform is total (no division is
evaluated) and is the step function `D_MAX if v ≥ level else 0`; concretely for
`level = 50`: `v = 50 ↦ D_MAX` and `v = 49 ↦ 0`. -/
theorem C5_zero_width (level v : ℤ) :
    windowMap level 0 v = (if level ≤ v then D_MAX else 0) ∧
    (windowMap 50 0 50 = D_MAX ∧ windowMap 50 0 49 = 0) :=
  ⟨by simp [windowMap], by norm_num [windowMap], by norm_num [windowMap]⟩

/-- Claim C6: for fixed `(level, width)` with `width > 0` the windowing
transform is monotonically non-decreasing in the raw pixel value. -/
theorem C6_windowing_monotone (level width v1 v2 : ℤ) (hw : 0 < width)
    (hv : v1 ≤ v2) : windowMap level width v1 ≤ windowMap level width v2 := by
  have hw0 : width ≠ 0 := ne_of_gt hw
  have hvq : (v1 : ℚ) ≤ (v2 : ℚ) := by exact_mod_cast hv
  by_cases h1 : (v1 : ℚ) ≤ wLow level width
  · rw [windowMap_of_le_low hw0 h1]
    exact windowMap_nonneg _ _ _ hw.le
  · by_cases h2 : wHigh level width ≤ (v1 : ℚ)
    · rw [windowMap_of_ge_high hw h2, windowMap_of_ge_high hw (le_trans h2 hvq)]
    · have h1' := not_le.mp h1
      have h2' := not_le.mp h2
      rw [windowMap_interior hw h1' h2']
      by_cases h3 : wHigh level width ≤ (v2 : ℚ)
      · rw [windowMap_of_ge_high hw h3]
        exact roundHalfUp_le_of_lt (wInterp_lt hw h2')
      · rw [windowMap_interior hw (lt_of_lt_of_le h1' hvq) (not_le.mp h3)]
        exact roundHalfUp_mono (wInterp_mono hw hv)

/-- Witness for C6 at `level = 40`, `width = 400`, `v1 = 10 ≤ v2 = 20`. -/
theorem C6_windowing_monotone_witness :
    windowMap 40 400 10 ≤ windowMap 40 400 20 :=
  C6_windowing_monotone 40 400 10 20 (by norm_num) (by norm_num)

/-! ## Region statistics lemmas -/

lemma rectValues_length (g : List (List ℤ)) (x0 y0 x1 y1 : ℕ) :
    (rectValues g x0 y0 x1 y1).length = (y1 + 1 - y0) * (x1 + 1 - x0) := by
  unfold rectValues
  rw [List.length_flatten]
  simp [Function.comp_def, List.length_map, List.length_range, List.map_const',
    List.sum_replicate, smul_eq_mul]

lemma rectValues_length_area (g : List (List ℤ)) (x0 y0 x1 y1 : ℕ)
    (hx : x0 ≤ x1) (hy : y0 ≤ y1) :
    (rectValues g x0 y0 x1 y1).length = regionArea x0 y0 x1 y1 := by
  rw [rectValues_length]
  unfold regionArea
  have h1 : y1 + 1 - y0 = y1 - y0 + 1 := by omega
  have h2 : x1 + 1 - x0 = x1 - x0 + 1 := by omega
  rw [h1, h2, Nat.mul_comm]

lemma sum_sq_dev (l : List ℚ) (c : ℚ) :
    (l.map (fun x => (x - c) ^ 2)).sum =
      (l.map (fun x => x ^ 2)).sum - 2 * c * l.sum + (l.length : ℚ) * c ^ 2 := by
  induction l with
  | nil => simp
  | cons a t ih =>
      simp only [List.map_cons, List.sum_cons, ih, List.length_cons]
      push_cast
      ring

lemma regionVar_eq (vs : List ℤ) (h : vs.length ≠ 0) :
    regionVar vs =
      ((vs.map (fun v : ℤ => ((v : ℚ)) ^ 2)).sum) / (vs.length : ℚ) -
        (regionMean vs) ^ 2 := by
  have hn : ((vs.length : ℚ)) ≠ 0 := Nat.cast_ne_zero.mpr h
  unfold regionVar regionMean
  have key := sum_sq_dev (vs.map (fun v : ℤ => (v : ℚ)))
    ((vs.sum : ℚ) / (vs.length : ℚ))
  simp only [List.map_map, Function.comp_def, List.length_map,
    ← Int.cast_list_sum] at key
  rw [key]
  field_simp
  ring

lemma rectValues_concrete : rectValues grid4 1 1 2 2 = [6, 7, 10, 11] := by rfl

lemma regionMean_concrete : regionMean [6, 7, 10, 11] = 17/2 := by
  norm_num [regionMean]

lemma regionVar_concrete : regionVar [6, 7, 10, 11] = 17/4 := by
  norm_num [regionVar, regionMean]

lemma regionStddev_concrete :
    regionStddev [6, 7, 10, 11] = Real.sqrt ((17 : ℝ)/4) := by
  unfold regionStddev
  rw [regionVar_concrete]
  norm_num

/-! ## Claim theorems: region statistics -/

/-- Counterexample to claim C2 as stated: at the concrete scenario the
population standard deviation of `{6, 7, 10, 11}` is `sqrt(17/4)`, not the
claimed `sqrt(5/2)` (the spec's own expression
`sqrt(((6-8.5)² + (7-8.5)² + (10-8.5)² + (11-8.5)²)/4)` evaluates to
`sqrt(4.25)`). -/
theorem C2_counterexample :
    regionStddev (rectValues grid4 1 1 2 2) ≠ Real.sqrt ((5 : ℝ)/2) := by
  rw [rectValues_concrete, regionStddev_concrete]
  intro hEq
  have h := (Real.sqrt_inj (by norm_num) (by norm_num)).mp hEq
  norm_num at h

/-- Claim C2 (amended): for every slice and every clipped/normalized selection
rectangle, the region covers `(x1 - x0 + 1) * (y1 - y0 + 1)` pixels, the mean
is the sum of the covered raw values divided by the area, and the standard
deviation is the population one, `sqrt(mean(v²) - mean(v)²)`; on the 4×4 grid
the rectangle `(1,1,2,2)` covers `{6, 7, 10, 11}` and yields `area = 4`,
`mean = 17/2` and `stddev = sqrt(17/4)` (the claimed `sqrt(5/2)` is an
arithmetic slip). -/
theorem C2_region_stats (g : List (List ℤ)) (x0 y0 x1 y1 : ℕ)
    (hx : x0 ≤ x1) (hy : y0 ≤ y1) :
    ((rectValues g x0 y0 x1 y1).length = regionArea x0 y0 x1 y1) ∧
    (regionMean (rectValues g x0 y0 x1 y1) =
      ((rectValues g x0 y0 x1 y1).sum : ℚ) / (regionArea x0 y0 x1 y1 : ℚ)) ∧
    (regionStddev (rectValues g x0 y0 x1 y1) =
      Real.sqrt ((((rectValues g x0 y0 x1 y1).map (fun v : ℤ => ((v : ℚ)) ^ 2)).sum /
        ((rectValues g x0 y0 x1 y1).length : ℚ) -
        (regionMean (rectValues g x0 y0 x1 y1)) ^ 2 : ℚ))) ∧
    (rectValues grid4 1 1 2 2 = [6, 7, 10, 11] ∧
     regionArea 1 1 2 2 = 4 ∧
     regionMean [6, 7, 10, 11] = 17/2 ∧
     regionStddev [6, 7, 10, 11] = Real.sqrt ((17 : ℝ)/4)) := by
  have hlen := rectValues_length_area g x0 y0 x1 y1 hx hy
  have hne : (rectValues g x0 y0 x1 y1).length ≠ 0 := by
    rw [hlen]; unfold regionArea; positivity
  refine ⟨hlen, ?_, ?_, rectValues_concrete, by norm_num [regionArea],
    regionMean_concrete, regionStddev_concrete⟩
  · unfold regionMean
    rw [hlen]
  · unfold regionStddev
    rw [regionVar_eq _ hne]

/-- Witness for C2 at the 4×4 grid with rectangle `(1,1,2,2)`. -/
theorem C2_region_stats_witness :
    (rectValues grid4 1 1 2 2).length = regionArea 1 1 2 2 ∧
    regionStddev [6, 7, 10, 11] = Real.sqrt ((17 : ℝ)/4) := by
  have h := C2_region_stats grid4 1 1 2 2 (by norm_num) (by norm_num)
  exact ⟨h.1, h.2.2.2.2.2.2⟩

/-! ## Orchestrator lemmas -/

lemma pyGet_nil {α : Type} (i : ℤ) : pyGet ([] : List α) i = none := by
  unfold pyGet
  split_ifs <;> simp

/-! ## Claim theorems: orchestrator -/

/-- Claim C3: with a completed selection present, changing the displayed slice
(selecting a different row `j` of the image list, which dispatches
`image_change`) clears the selection, so neither an overlay rectangle nor
statistics are emitted for the newly displayed slice. -/
theorem C3_slice_change_clears_selection (s : ViewerState) (r : Rect) (j : ℤ)
    (_hsel : s.selection = some r) (_hj : j ≠ s.currentRow)
    (nm snm : String) (sess : List (String × List Dicom)) (series : List Dicom)
    (d : Dicom)
    (h1 : pyGet s.sessions s.sessionsIndex = some (nm, sess))
    (h2 : pyGet sess s.seriesIndex = some (snm, series))
    (h3 : pyGet series j = some d) :
    (slider_image_changed s j).1 = none ∧
    (slider_image_changed s j).2.selection = none ∧
    emittedOverlay (slider_image_changed s j).2 = none ∧
    emittedStats (slider_image_changed s j).2 = none := by
  simp [slider_image_changed, image_change, h1, h2, h3, setImage,
    slider_released, emittedOverlay, emittedStats]

/-- Witness for C3: `sampleState` has a completed selection; selecting row 1
(a different slice) clears it. -/
theorem C3_slice_change_clears_selection_witness :
    (slider_image_changed sampleState 1).2.selection = none ∧
    emittedStats (slider_image_changed sampleState 1).2 = none := by
  have h := C3_slice_change_clears_selection sampleState ⟨0, 0, 0, 0⟩ 1
    (by decide) (by decide) "sess1" "ser1" [("ser1", sampleSeries)] sampleSeries
    ⟨"b.dcm", [[1]]⟩ (by decide) (by decide) (by decide)
  exact ⟨h.2.1, h.2.2.2⟩

/-- Counterexample to claim C4 as stated: on a loaded state with a selection,
`dicoms_change` with the out-of-range series index 5 raises an uncaught
`IndexError` (nothing in `dicomviewer.py` catches it) after having already
cleared the selection — the state is partially mutated, not left unchanged. -/
theorem C4_counterexample :
    (dicoms_change sampleState 5).1 = some PyErr.indexError ∧
    (dicoms_change sampleState 5).2 ≠ sampleState ∧
    sampleState.selection = some ⟨0, 0, 0, 0⟩ ∧
    (dicoms_change sampleState 5).2.selection = none := by decide

/-- Claim C4 (amended): a navigation handler invoked with an out-of-range index
raises an uncaught `IndexError`; `series_change` and `image_change` leave the
whole state unchanged, but `dicoms_change` clears the selection before its
failing lookup, so only the rest of the state survives unchanged. -/
theorem C4_out_of_range (s : ViewerState) (index : ℤ)
    (p : String × List (String × List Dicom)) (q : String × List Dicom) :
    (s.sessions ≠ [] → pyGet s.sessions index = none →
      series_change s index = (some PyErr.indexError, s)) ∧
    (s.sessions ≠ [] → pyGet s.sessions s.sessionsIndex = some p →
      pyGet p.2 index = none →
      dicoms_change s index = (some PyErr.indexError, { s with selection := none })) ∧
    (pyGet s.sessions s.sessionsIndex = some p → pyGet p.2 s.seriesIndex = some q →
      pyGet q.2 s.currentRow = none →
      image_change s = (some PyErr.indexError, s)) := by
  refine ⟨fun h1 h2 => ?_, fun h1 h2 h3 => ?_, fun h1 h2 h3 => ?_⟩
  · simp [series_change, h1, h2]
  · simp [dicoms_change, h1, h2, h3]
  · simp [image_change, h1, h2, h3]

/-- Witness for C4 (amended) on `sampleState` with out-of-range indices. -/
theorem C4_out_of_range_witness :
    series_change sampleState 5 = (some PyErr.indexError, sampleState) ∧
    dicoms_change sampleState 5 =
      (some PyErr.indexError, { sampleState with selection := none }) ∧
    image_change { sampleState with currentRow := 5 } =
      (some PyErr.indexError, { sampleState with currentRow := 5 }) := by
  refine ⟨?_, ?_, ?_⟩
  · exact (C4_out_of_range sampleState 5 ("sess1", [("ser1", sampleSeries)])
      ("ser1", sampleSeries)).1 (by decide) (by decide)
  · exact (C4_out_of_range sampleState 5 ("sess1", [("ser1", sampleSeries)])
      ("ser1", sampleSeries)).2.1 (by decide) (by decide) (by decide)
  · exact (C4_out_of_range { sampleState with currentRow := 5 } 0
      ("sess1", [("ser1", sampleSeries)]) ("ser1", sampleSeries)).2.2
      (by decide) (by decide) (by decide)

/-- Claim C7: `selectSession(k)` and `selectSeries(k)` update the current
session/series index, reset the slice index to 0, clear any selection, display
the first slice of the newly selected series and re-render it. -/
theorem C7_select_resets (s : ViewerState) (k : ℤ)
    (nm snm nm2 snm2 : String)
    (sess sess2 : List (String × List Dicom)) (series series2 : List Dicom)
    (d d2 : Dicom)
    (hs : s.sessions ≠ [])
    (hk : pyGet s.sessions k = some (nm, sess))
    (h0 : pyGet sess 0 = some (snm, series))
    (hd : pyGet series 0 = some d)
    (hc : pyGet s.sessions s.sessionsIndex = some (nm2, sess2))
    (hk2 : pyGet sess2 k = some (snm2, series2))
    (hd2 : pyGet series2 0 = some d2) :
    ((selectSession s k).1 = none ∧
     (selectSession s k).2.sessionsIndex = k ∧
     (selectSession s k).2.seriesIndex = 0 ∧
     (selectSession s k).2.currentRow = 0 ∧
     (selectSession s k).2.selection = none ∧
     (selectSession s k).2.displayed = some d ∧
     (selectSession s k).2.displayBuffer =
       some (windowImage s.sliderLevel s.sliderWindow d.pixels)) ∧
    ((selectSeries s k).1 = none ∧
     (selectSeries s k).2.seriesIndex = k ∧
     (selectSeries s k).2.currentRow = 0 ∧
     (selectSeries s k).2.selection = none ∧
     (selectSeries s k).2.displayed = some d2 ∧
     (selectSeries s k).2.displayBuffer =
       some (windowImage s.sliderLevel s.sliderWindow d2.pixels)) := by
  constructor
  · simp [selectSession, series_change, dicoms_change, setImage,
      slider_released, hs, hk, h0, hd]
  · simp [selectSeries, dicoms_change, setImage, slider_released, hs, hc, hk2, hd2]

/-- Witness for C7 on `sampleState` at index 0. -/
theorem C7_select_resets_witness :
    (selectSession sampleState 0).2.currentRow = 0 ∧
    (selectSession sampleState 0).2.selection = none ∧
    (selectSeries sampleState 0).2.displayed = some ⟨"a.dcm", [[0]]⟩ := by
  have h := C7_select_resets sampleState 0 "sess1" "ser1" "sess1" "ser1"
    [("ser1", sampleSeries)] [("ser1", sampleSeries)] sampleSeries sampleSeries
    ⟨"a.dcm", [[0]]⟩ ⟨"a.dcm", [[0]]⟩ (by decide) (by decide) (by decide)
    (by decide) (by decide) (by decide) (by decide)
  exact ⟨h.1.2.2.2.1, h.1.2.2.2.2.1, h.2.2.2.2.2.1⟩

/-- Claim C8: `setWindow(level, width)` (moving the window sliders, which
dispatches `slider_released`) updates only the window setting and re-renders
the displayed slice; session, series, slice row, selection, the displayed
image and the image-slider range are all unchanged. -/
theorem C8_setWindow_frame (s : ViewerState) (l w : ℤ) :
    (setWindow s l w).windowLevel = l ∧
    (setWindow s l w).windowWidth = w ∧
    (setWindow s l w).displayBuffer =
      s.displayed.map (fun d => windowImage l w d.pixels) ∧
    (setWindow s l w).sessions = s.sessions ∧
    (setWindow s l w).sessionsIndex = s.sessionsIndex ∧
    (setWindow s l w).seriesIndex = s.seriesIndex ∧
    (setWindow s l w).currentRow = s.currentRow ∧
    (setWindow s l w).selection = s.selection ∧
    (setWindow s l w).displayed = s.displayed ∧
    (setWindow s l w).sliderImageMin = s.sliderImageMin ∧
    (setWindow s l w).sliderImageMax = s.sliderImageMax := by
  simp [setWindow, slider_released]

/-- Counterexample to claim C9 as stated: on the initial state with no study
loaded, `image_change` has no empty-study guard — the session lookup raises an
uncaught `IndexError` instead of being a caught no-op. -/
theorem C9_counterexample :
    emptyState.sessions = [] ∧
    (image_change emptyState).1 = some PyErr.indexError := by decide

/-- Claim C9 (amended): with no study loaded, `series_change` returns early as
a true no-op; `dicoms_change` also returns early but only after clearing any
selection; `image_change` has no guard and raises an uncaught `IndexError`
(leaving the state unchanged). -/
theorem C9_empty_study (s : ViewerState) (index : ℤ) (h : s.sessions = []) :
    series_change s index = (none, s) ∧
    dicoms_change s index = (none, { s with selection := none }) ∧
    (image_change s).1 = some PyErr.indexError ∧
    (image_change s).2 = s := by
  refine ⟨?_, ?_, ?_, ?_⟩ <;>
    simp [series_change, dicoms_change, image_change, h, pyGet_nil]

/-- Witness for C9 (amended) on the initial empty state. -/
theorem C9_empty_study_witness :
    series_change emptyState 0 = (none, emptyState) ∧
    (image_change emptyState).1 = some PyErr.indexError := by
  have h := C9_empty_study emptyState 0 (by decide)
  exact ⟨h.1, h.2.2.1⟩

/-- Claim C10: after `dicoms_change` the image slider's range is `[1, n]` for a
series of length `n`, while `slider_image_changed(v)` selects the 0-based row
`v`: every in-range row `0 ≤ v < n` is displayed as the slice at 0-based index
`v`, so slider position 1 (the minimum) shows the second slice, position 0 is
outside the slider's range (the first slice is unreachable via the slider),
and the maximum position `n` selects row `n`, past the last slice, raising
`IndexError`. -/
theorem C10_slider_off_by_one (s : ViewerState) (index : ℤ)
    (nm snm : String) (sess : List (String × List Dicom)) (series : List Dicom)
    (hs : s.sessions ≠ [])
    (hc : pyGet s.sessions s.sessionsIndex = some (nm, sess))
    (hi : pyGet sess index = some (snm, series))
    (hser : pyGet sess s.seriesIndex = some (snm, series))
    (hne : series ≠ []) :
    ((dicoms_change s index).2.sliderImageMin = 1 ∧
     (dicoms_change s index).2.sliderImageMax = (series.length : ℤ) ∧
     (0 : ℤ) < (dicoms_change s index).2.sliderImageMin) ∧
    (∀ v : ℤ, 0 ≤ v → v < (series.length : ℤ) →
      (slider_image_changed s v).1 = none ∧
      (slider_image_changed s v).2.currentRow = v ∧
      (slider_image_changed s v).2.displayed = pyGet series v) ∧
    ((slider_image_changed s (series.length : ℤ)).1 = some PyErr.indexError ∧
     (slider_image_changed s (series.length : ℤ)).2.currentRow =
       (series.length : ℤ)) := by
  obtain ⟨d0, t, rfl⟩ : ∃ d0 t, series = d0 :: t := by
    cases series with
    | nil => exact absurd rfl hne
    | cons a t => exact ⟨a, t, rfl⟩
  have hd0 : pyGet (d0 :: t) 0 = some d0 := rfl
  refine ⟨?_, ?_, ?_⟩
  · simp [dicoms_change, setImage, slider_released, hs, hc, hi, hd0]
  · intro v hv0 hvlt
    have hvn : v.toNat < (d0 :: t).length := by omega
    have hv : pyGet (d0 :: t) v = some ((d0 :: t).get ⟨v.toNat, hvn⟩) := by
      unfold pyGet
      rw [if_pos hv0]
      exact List.get?_eq_get hvn
    simp [slider_image_changed, image_change, setImage, slider_released,
      hc, hser, hv]
  · have hlen : pyGet (d0 :: t) ((t.length : ℤ) + 1) = none := by
      unfold pyGet
      rw [if_pos (by positivity)]
      apply List.get?_eq_none.mpr
      simp only [List.length_cons]
      omega
    simp [slider_image_changed, image_change, hc, hser, hlen]

/-- Witness for C10 on `sampleState` (series of length 3): the slider range is
`[1, 3]`, position 1 shows the second slice, and position 3 is past the end. -/
theorem C10_slider_off_by_one_witness :
    ((dicoms_change sampleState 0).2.sliderImageMin = 1 ∧
     (dicoms_change sampleState 0).2.sliderImageMax = 3) ∧
    ((slider_image_changed sampleState 1).2.displayed =
      pyGet sampleSeries 1) ∧
    (slider_image_changed sampleState 3).1 = some PyErr.indexError := by
  have h := C10_slider_off_by_one sampleState 0 "sess1" "ser1"
    [("ser1", sampleSeries)] sampleSeries (by decide) (by decide) (by decide)
    (by decide) (by decide)
  have e : ((sampleSeries.length : ℕ) : ℤ) = 3 := by decide
  refine ⟨⟨h.1.1, ?_⟩, (h.2.1 1 (by decide) (by decide)).2.2, ?_⟩
  · rw [h.1.2.1, e]
  · have h3 := h.2.2.1
    rw [e] at h3
    exact h3
